import Mathlib

/-!
Verification of the NovatoStatPad scoreboard clock engine.

The definitions below are a shallow embedding of the scoreboard state and
its mutation operations, translated from `src/scoreboard.py`
(class `DualMonitorScoreboard`) and, for the second timer variant, from
`src/scoreboard_tkinter.py` (class `Scoreboard`).  Clock values are
modelled as rationals, counters as integers.  UI and network side effects
(`update_displays`, `update_supabase_data`) carry no state relevant to the
claims and are elided; the buzzer `play()` call is modelled as an emitted
`BuzzerEvent`.
-/

namespace NovatoStatPad

/-- The two team slots, `'A'` and `'B'` in the Python source. -/
inductive Team
  | A
  | B
  deriving DecidableEq, Repr

/-- The `game_status` string field: `"scheduled"`, `"live"`, `"paused"`. -/
inductive GameStatus
  | scheduled
  | live
  | paused
  deriving DecidableEq, Repr

/-- Buzzer events emitted by the timer loop, one constructor per clock. -/
inductive BuzzerEvent
  | game
  | shot
  deriving DecidableEq, Repr

/-- The configuration fields of `self.cfg` that the engine reads
(`load_cfg` defaults in `src/scoreboard.py`). -/
structure Config where
  game_seconds : ℚ
  shot_seconds : ℚ
  period_max : ℤ
  timeouts_per_team : ℤ
  teamA : String
  teamB : String
  deriving DecidableEq, Repr

/-- The mutable engine state: the fields of `DualMonitorScoreboard` that the
clock engine reads and writes.  `buzzer_sound` records whether the buzzer
sound object loaded successfully in `__init__` (it is `None` otherwise and
the timer loop then skips both the play call and the latch update). -/
structure GameState where
  teamA_name : String
  teamB_name : String
  scoreA : ℤ
  scoreB : ℤ
  foulsA : ℤ
  foulsB : ℤ
  timeoutsA : ℤ
  timeoutsB : ℤ
  period : ℤ
  game_seconds : ℚ
  shot_seconds : ℚ
  running_game : Bool
  running_shot : Bool
  game_buzzer_played : Bool
  shot_buzzer_played : Bool
  game_status : GameStatus
  buzzer_sound : Bool
  deriving DecidableEq, Repr

/-- Initial state: `init_with_defaults` plus the common initialisation in
`__init__` (`src/scoreboard.py` lines 435-452, 486-500). -/
def initial (cfg : Config) (sound : Bool) : GameState :=
  { teamA_name := cfg.teamA
    teamB_name := cfg.teamB
    scoreA := 0
    scoreB := 0
    foulsA := 0
    foulsB := 0
    timeoutsA := cfg.timeouts_per_team
    timeoutsB := cfg.timeouts_per_team
    period := 1
    game_seconds := cfg.game_seconds
    shot_seconds := cfg.shot_seconds
    running_game := false
    running_shot := false
    game_buzzer_played := false
    shot_buzzer_played := false
    game_status := GameStatus.scheduled
    buzzer_sound := sound }

/-- The `load_cfg()` fallback defaults (`GAME_SECONDS_DEFAULT = 10*60`,
`SHOT_SECONDS_DEFAULT = 24`, `PERIOD_MAX_DEFAULT = 4`). -/
def default_cfg : Config :=
  { game_seconds := 600
    shot_seconds := 24
    period_max := 4
    timeouts_per_team := 3
    teamA := "TEAM A"
    teamB := "TEAM B" }

/-- `update_score(team, points)`: `scoreX = max(0, scoreX + points)`. -/
def update_score (team : Team) (points : ℤ) (s : GameState) : GameState :=
  match team with
  | Team.A => { s with scoreA := max 0 (s.scoreA + points) }
  | Team.B => { s with scoreB := max 0 (s.scoreB + points) }

/-- `update_timeout(team, change)`: `timeoutsX = max(0, timeoutsX + change)`. -/
def update_timeout (team : Team) (change : ℤ) (s : GameState) : GameState :=
  match team with
  | Team.A => { s with timeoutsA := max 0 (s.timeoutsA + change) }
  | Team.B => { s with timeoutsB := max 0 (s.timeoutsB + change) }

/-- `update_foul(team, change)`: `foulsX = max(0, foulsX + change)`. -/
def update_foul (team : Team) (change : ℤ) (s : GameState) : GameState :=
  match team with
  | Team.A => { s with foulsA := max 0 (s.foulsA + change) }
  | Team.B => { s with foulsB := max 0 (s.foulsB + change) }

/-- `reset_game_time()`: restore the configured game duration, stop the game
clock, clear the game buzzer latch, set status to `"paused"`. -/
def reset_game_time (cfg : Config) (s : GameState) : GameState :=
  { s with game_seconds := cfg.game_seconds
           running_game := false
           game_buzzer_played := false
           game_status := GameStatus.paused }

/-- `toggle_game_time()`: if the game clock reads 0 this resets it
(`reset_game_time`), otherwise it flips `running_game` and mirrors the flag
into `game_status`. -/
def toggle_game_time (cfg : Config) (s : GameState) : GameState :=
  if s.game_seconds = 0 then
    reset_game_time cfg s
  else
    { s with running_game := !s.running_game
             game_status := if !s.running_game then GameStatus.live else GameStatus.paused }

/-- `toggle_shot_time()`: flip `running_shot` unconditionally (no reset at
zero, unlike the game clock). -/
def toggle_shot_time (s : GameState) : GameState :=
  { s with running_shot := !s.running_shot }

/-- `adjust_time(seconds)`: `game_seconds = max(0, game_seconds + seconds)`;
if the result is positive the game buzzer latch is cleared.  There is no
upper clamp. -/
def adjust_time (seconds : ℚ) (s : GameState) : GameState :=
  let s1 := { s with game_seconds := max 0 (s.game_seconds + seconds) }
  if 0 < s1.game_seconds then { s1 with game_buzzer_played := false } else s1

/-- `adjust_period(delta)`: clamp into `[1, period_max]`. -/
def adjust_period (cfg : Config) (delta : ℤ) (s : GameState) : GameState :=
  { s with period := max 1 (min cfg.period_max (s.period + delta)) }

/-- `adjust_shot_time(delta)`: `shot_seconds = max(0, min(99, shot_seconds
+ delta))`; if the result is positive the shot buzzer latch is cleared. -/
def adjust_shot_time (delta : ℚ) (s : GameState) : GameState :=
  let s1 := { s with shot_seconds := max 0 (min 99 (s.shot_seconds + delta)) }
  if 0 < s1.shot_seconds then { s1 with shot_buzzer_played := false } else s1

/-- `reset_shot_clock_14()`: 14-second shot clock reset. -/
def reset_shot_clock_14 (s : GameState) : GameState :=
  { s with shot_seconds := 14
           running_shot := false
           shot_buzzer_played := false }

/-- `reset_shot_clock()`: 24-second shot clock reset. -/
def reset_shot_clock (s : GameState) : GameState :=
  { s with shot_seconds := 24
           running_shot := false
           shot_buzzer_played := false }

/-- `reset_all()`: reinitialise scores, period, timeouts, fouls, both clocks
and both latches from the configuration; stop both clocks. -/
def reset_all (cfg : Config) (s : GameState) : GameState :=
  { s with scoreA := 0
           scoreB := 0
           period := 1
           timeoutsA := cfg.timeouts_per_team
           timeoutsB := cfg.timeouts_per_team
           foulsA := 0
           foulsB := 0
           running_game := false
           running_shot := false
           game_seconds := cfg.game_seconds
           shot_seconds := cfg.shot_seconds
           game_status := GameStatus.scheduled
           game_buzzer_played := false
           shot_buzzer_played := false }

/-- Modelled from the spec: `swapTeams()` — "exchanges name/score/foul/
timeout pairs between the two team slots (identity-preserving swap, not a
reset)".  No implementation of this operation is present under `src/`
(the sources there only carry display-order configuration flags such as
`control_team_swapped`); the definition follows the words of spec §4.2. -/
def swap_teams (s : GameState) : GameState :=
  { s with teamA_name := s.teamB_name
           teamB_name := s.teamA_name
           scoreA := s.scoreB
           scoreB := s.scoreA
           foulsA := s.foulsB
           foulsB := s.foulsA
           timeoutsA := s.timeoutsB
           timeoutsB := s.timeoutsA }

/-- Game-clock half of one iteration of `timer_thread` in
`DualMonitorScoreboard.start_timer` (`src/scoreboard.py` lines 1582-1594):
if the game clock is running and positive, floor-decrement it by `dt`; on
the transition to exactly 0, if a buzzer sound is loaded and the latch is
clear, play the buzzer (emit the event) and set the latch.  The running
flag is not touched. -/
def tickGame (dt : ℚ) (s : GameState) : GameState × List BuzzerEvent :=
  if s.running_game = true ∧ 0 < s.game_seconds then
    let prev := s.game_seconds
    let s1 := { s with game_seconds := max 0 (s.game_seconds - dt) }
    if 0 < prev ∧ s1.game_seconds = 0 then
      if s1.buzzer_sound = true ∧ s1.game_buzzer_played = false then
        ({ s1 with game_buzzer_played := true }, [BuzzerEvent.game])
      else (s1, [])
    else (s1, [])
  else (s, [])

/-- Shot-clock half of one iteration of `timer_thread`
(`src/scoreboard.py` lines 1597-1609), symmetric to `tickGame`. -/
def tickShot (dt : ℚ) (s : GameState) : GameState × List BuzzerEvent :=
  if s.running_shot = true ∧ 0 < s.shot_seconds then
    let prev := s.shot_seconds
    let s1 := { s with shot_seconds := max 0 (s.shot_seconds - dt) }
    if 0 < prev ∧ s1.shot_seconds = 0 then
      if s1.buzzer_sound = true ∧ s1.shot_buzzer_played = false then
        ({ s1 with shot_buzzer_played := true }, [BuzzerEvent.shot])
      else (s1, [])
    else (s1, [])
  else (s, [])

/-- One iteration of the `timer_thread` loop of
`DualMonitorScoreboard.start_timer` with elapsed delta `dt`: game clock
first, then shot clock; the emitted buzzer events in order. -/
def tick (dt : ℚ) (s : GameState) : GameState × List BuzzerEvent :=
  let pg := tickGame dt s
  let ps := tickShot dt pg.1
  (ps.1, pg.2 ++ ps.2)

/-- One iteration of the `timer_thread` loop of `Scoreboard.start_timer` in
`src/scoreboard_tkinter.py` (lines 664-669): the same guarded floor
decrements, with no buzzer at all. -/
def tick_tk (dt : ℚ) (s : GameState) : GameState :=
  let s1 :=
    if s.running_game = true ∧ 0 < s.game_seconds then
      { s with game_seconds := max 0 (s.game_seconds - dt) }
    else s
  if s1.running_shot = true ∧ 0 < s1.shot_seconds then
    { s1 with shot_seconds := max 0 (s1.shot_seconds - dt) }
  else s1

/-- The operator- and timer-driven operations of the engine, labelling the
transitions of the shared state.  `tickOp dt` is one `timer_thread`
iteration; the rest are the keyboard-driven mutation methods. -/
inductive Op
  | tickOp (dt : ℚ)
  | updateScore (t : Team) (d : ℤ)
  | updateFoul (t : Team) (d : ℤ)
  | updateTimeout (t : Team) (d : ℤ)
  | toggleGame
  | toggleShot
  | adjustTime (d : ℚ)
  | adjustPeriod (d : ℤ)
  | adjustShotTime (d : ℚ)
  | resetShot14
  | resetShot24
  | resetGame
  | resetAllOp
  | swapTeamsOp
  deriving DecidableEq, Repr

/-- Apply one operation; only `tickOp` can emit buzzer events. -/
def step (cfg : Config) (s : GameState) : Op → GameState × List BuzzerEvent
  | Op.tickOp dt => tick dt s
  | Op.updateScore t d => (update_score t d s, [])
  | Op.updateFoul t d => (update_foul t d s, [])
  | Op.updateTimeout t d => (update_timeout t d s, [])
  | Op.toggleGame => (toggle_game_time cfg s, [])
  | Op.toggleShot => (toggle_shot_time s, [])
  | Op.adjustTime d => (adjust_time d s, [])
  | Op.adjustPeriod d => (adjust_period cfg d s, [])
  | Op.adjustShotTime d => (adjust_shot_time d s, [])
  | Op.resetShot14 => (reset_shot_clock_14 s, [])
  | Op.resetShot24 => (reset_shot_clock s, [])
  | Op.resetGame => (reset_game_time cfg s, [])
  | Op.resetAllOp => (reset_all cfg s, [])
  | Op.swapTeamsOp => (swap_teams s, [])

/-- An operation respecting the tick contract of spec §4.1: the elapsed
delta passed to a tick is non-negative. -/
def ValidOp : Op → Prop
  | Op.tickOp dt => 0 ≤ dt
  | _ => True

instance : DecidablePred ValidOp := by
  intro op
  cases op <;> simp [ValidOp] <;> infer_instance

/-- States reachable from the initial state by valid operations. -/
inductive Reachable (cfg : Config) : GameState → Prop
  | init (sound : Bool) : Reachable cfg (initial cfg sound)
  | step (s : GameState) (op : Op) : Reachable cfg s → ValidOp op →
      Reachable cfg (step cfg s op).1

/-- Selector for talking about the two clocks uniformly. -/
inductive Clock
  | game
  | shot
  deriving DecidableEq, Repr

/-- Remaining seconds of the selected clock. -/
def clockVal : Clock → GameState → ℚ
  | Clock.game, s => s.game_seconds
  | Clock.shot, s => s.shot_seconds

/-- Running flag of the selected clock. -/
def clockRunning : Clock → GameState → Bool
  | Clock.game, s => s.running_game
  | Clock.shot, s => s.running_shot

/-- Buzzer latch of the selected clock. -/
def clockLatch : Clock → GameState → Bool
  | Clock.game, s => s.game_buzzer_played
  | Clock.shot, s => s.shot_buzzer_played

/-- Buzzer event of the selected clock. -/
def clockEvent : Clock → BuzzerEvent
  | Clock.game => BuzzerEvent.game
  | Clock.shot => BuzzerEvent.shot

/-- State after the first `n` operations of `ops`, starting from `s`. -/
def stateAfter (cfg : Config) (s : GameState) (ops : List Op) (n : ℕ) : GameState :=
  (ops.take n).foldl (fun t op => (step cfg t op).1) s

/-- The `n`-th operation of the trace fires the buzzer of clock `c`. -/
def firesAt (cfg : Config) (s : GameState) (ops : List Op) (c : Clock) (n : ℕ) : Prop :=
  n < ops.length ∧
    clockEvent c ∈ (step cfg (stateAfter cfg s ops n) (ops.getD n Op.toggleShot)).2

instance (cfg : Config) (s : GameState) (ops : List Op) (c : Clock) (n : ℕ) :
    Decidable (firesAt cfg s ops c n) := by
  unfold firesAt
  infer_instance

/-- The team slot opposite to `t`. -/
def Team.other : Team → Team
  | Team.A => Team.B
  | Team.B => Team.A

/-- Score of the given team slot. -/
def scoreOf : Team → GameState → ℤ
  | Team.A, s => s.scoreA
  | Team.B, s => s.scoreB

/-- Fouls of the given team slot. -/
def foulsOf : Team → GameState → ℤ
  | Team.A, s => s.foulsA
  | Team.B, s => s.foulsB

/-- Timeouts of the given team slot. -/
def timeoutsOf : Team → GameState → ℤ
  | Team.A, s => s.timeoutsA
  | Team.B, s => s.timeoutsB

/-- Trace used to witness C2: start the shot clock, run it down to zero
(first buzzer), put 5 seconds back on it, run it down again (second
buzzer). -/
def c2ops : List Op :=
  [Op.toggleShot, Op.tickOp 24, Op.adjustShotTime 5, Op.tickOp 5]

/-- Concrete state for C1: game clock running at 2 seconds, buzzer sound
loaded, game latch clear. -/
def c1_state : GameState :=
  { initial default_cfg true with
      game_seconds := 2
      running_game := true
      game_status := GameStatus.live }

/-- Concrete reachable state for C4: toggle the game clock on, then tick
for the full configured duration. -/
def c4_state : GameState :=
  (step default_cfg
    (step default_cfg (initial default_cfg true) Op.toggleGame).1 (Op.tickOp 600)).1

/-- Configuration with a zero game duration, used to witness C4. -/
def c4w_cfg : Config :=
  { default_cfg with game_seconds := 0 }

/-- Concrete state for C5: both clocks at zero, shot latch set. -/
def c5_state : GameState :=
  { initial default_cfg true with
      game_seconds := 0
      shot_seconds := 0
      shot_buzzer_played := true }

/-- Concrete state for C7: team A has 3 points. -/
def c7_state : GameState :=
  { initial default_cfg true with scoreA := 3 }

/-- Concrete state for C8: both clocks running, game clock at 2 seconds. -/
def c8_state : GameState :=
  { initial default_cfg true with
      game_seconds := 2
      running_game := true
      running_shot := true }

/-! Supporting lemmas about the two halves of the timer iteration. -/

lemma tickGame_other_fields (dt : ℚ) (s : GameState) :
    (tickGame dt s).1.running_game = s.running_game ∧
    (tickGame dt s).1.running_shot = s.running_shot ∧
    (tickGame dt s).1.shot_seconds = s.shot_seconds ∧
    (tickGame dt s).1.shot_buzzer_played = s.shot_buzzer_played ∧
    (tickGame dt s).1.buzzer_sound = s.buzzer_sound := by
  simp only [tickGame]
  split_ifs <;> simp

lemma tickShot_other_fields (dt : ℚ) (s : GameState) :
    (tickShot dt s).1.running_game = s.running_game ∧
    (tickShot dt s).1.running_shot = s.running_shot ∧
    (tickShot dt s).1.game_seconds = s.game_seconds ∧
    (tickShot dt s).1.game_buzzer_played = s.game_buzzer_played ∧
    (tickShot dt s).1.buzzer_sound = s.buzzer_sound := by
  simp only [tickShot]
  split_ifs <;> simp

lemma tickGame_game_seconds (dt : ℚ) (s : GameState) :
    (tickGame dt s).1.game_seconds =
      if s.running_game = true ∧ 0 < s.game_seconds then max 0 (s.game_seconds - dt)
      else s.game_seconds := by
  simp only [tickGame]
  split_ifs <;> simp_all

lemma tickShot_shot_seconds (dt : ℚ) (s : GameState) :
    (tickShot dt s).1.shot_seconds =
      if s.running_shot = true ∧ 0 < s.shot_seconds then max 0 (s.shot_seconds - dt)
      else s.shot_seconds := by
  simp only [tickShot]
  split_ifs <;> simp_all

lemma tickGame_latch_mono (dt : ℚ) (s : GameState)
    (h : s.game_buzzer_played = true) :
    (tickGame dt s).1.game_buzzer_played = true := by
  simp only [tickGame]
  split_ifs <;> simp_all

lemma tickShot_latch_mono (dt : ℚ) (s : GameState)
    (h : s.shot_buzzer_played = true) :
    (tickShot dt s).1.shot_buzzer_played = true := by
  simp only [tickShot]
  split_ifs <;> simp_all

lemma tickGame_events (dt : ℚ) (s : GameState) :
    (tickGame dt s).2 = [] ∨
      ((tickGame dt s).2 = [BuzzerEvent.game] ∧ s.game_buzzer_played = false ∧
        (tickGame dt s).1.game_buzzer_played = true ∧
        (tickGame dt s).1.game_seconds = 0) := by
  simp only [tickGame]
  split_ifs with h1 h2 h3 <;> simp_all

lemma tickShot_events (dt : ℚ) (s : GameState) :
    (tickShot dt s).2 = [] ∨
      ((tickShot dt s).2 = [BuzzerEvent.shot] ∧ s.shot_buzzer_played = false ∧
        (tickShot dt s).1.shot_buzzer_played = true ∧
        (tickShot dt s).1.shot_seconds = 0) := by
  simp only [tickShot]
  split_ifs with h1 h2 h3 <;> simp_all

lemma tick_running (dt : ℚ) (s : GameState) :
    (tick dt s).1.running_game = s.running_game ∧
    (tick dt s).1.running_shot = s.running_shot := by
  simp only [tick]
  have hg := tickGame_other_fields dt s
  have hs := tickShot_other_fields dt (tickGame dt s).1
  exact ⟨hs.1.trans hg.1, hs.2.1.trans hg.2.1⟩

lemma tick_game_seconds (dt : ℚ) (s : GameState) :
    (tick dt s).1.game_seconds =
      if s.running_game = true ∧ 0 < s.game_seconds then max 0 (s.game_seconds - dt)
      else s.game_seconds := by
  simp only [tick]
  have hs := tickShot_other_fields dt (tickGame dt s).1
  rw [hs.2.2.1, tickGame_game_seconds]

lemma tick_shot_seconds (dt : ℚ) (s : GameState) :
    (tick dt s).1.shot_seconds =
      if s.running_shot = true ∧ 0 < s.shot_seconds then max 0 (s.shot_seconds - dt)
      else s.shot_seconds := by
  simp only [tick]
  have hg := tickGame_other_fields dt s
  rw [tickShot_shot_seconds, hg.2.1, hg.2.2.1]

lemma step_clock_nonneg (cfg : Config) (s : GameState) (op : Op)
    (hcg : 0 ≤ cfg.game_seconds) (hcs : 0 ≤ cfg.shot_seconds)
    (hg : 0 ≤ s.game_seconds) (hs : 0 ≤ s.shot_seconds) :
    0 ≤ (step cfg s op).1.game_seconds ∧ 0 ≤ (step cfg s op).1.shot_seconds := by
  cases op with
  | tickOp dt =>
      constructor
      · show 0 ≤ (tick dt s).1.game_seconds
        rw [tick_game_seconds]
        split_ifs
        · exact le_max_left 0 _
        · exact hg
      · show 0 ≤ (tick dt s).1.shot_seconds
        rw [tick_shot_seconds]
        split_ifs
        · exact le_max_left 0 _
        · exact hs
  | updateScore t d => cases t <;> exact ⟨hg, hs⟩
  | updateFoul t d => cases t <;> exact ⟨hg, hs⟩
  | updateTimeout t d => cases t <;> exact ⟨hg, hs⟩
  | toggleGame =>
      show 0 ≤ (toggle_game_time cfg s).game_seconds ∧
        0 ≤ (toggle_game_time cfg s).shot_seconds
      simp only [toggle_game_time, reset_game_time]
      split_ifs <;> exact ⟨by assumption, hs⟩
  | toggleShot => exact ⟨hg, hs⟩
  | adjustTime d =>
      show 0 ≤ (adjust_time d s).game_seconds ∧ 0 ≤ (adjust_time d s).shot_seconds
      simp only [adjust_time]
      split_ifs <;> exact ⟨le_max_left 0 _, hs⟩
  | adjustPeriod d => exact ⟨hg, hs⟩
  | adjustShotTime d =>
      show 0 ≤ (adjust_shot_time d s).game_seconds ∧
        0 ≤ (adjust_shot_time d s).shot_seconds
      simp only [adjust_shot_time]
      split_ifs <;> exact ⟨hg, le_max_left 0 _⟩
  | resetShot14 => exact ⟨hg, by norm_num [step, reset_shot_clock_14]⟩
  | resetShot24 => exact ⟨hg, by norm_num [step, reset_shot_clock]⟩
  | resetGame => exact ⟨hcg, hs⟩
  | resetAllOp => exact ⟨hcg, hcs⟩
  | swapTeamsOp => exact ⟨hg, hs⟩

lemma reachable_nonneg (cfg : Config) (s : GameState)
    (hcg : 0 ≤ cfg.game_seconds) (hcs : 0 ≤ cfg.shot_seconds)
    (hreach : Reachable cfg s) :
    0 ≤ s.game_seconds ∧ 0 ≤ s.shot_seconds := by
  induction hreach with
  | init sound => exact ⟨hcg, hcs⟩
  | step t op _ _ ih => exact step_clock_nonneg cfg t op hcg hcs ih.1 ih.2

/-- A fired buzzer event marks a latch edge: the latch was clear before the
operation, is set after it, and the fired clock reads exactly 0. -/
lemma fire_latch_edge (cfg : Config) (s : GameState) (op : Op) (c : Clock)
    (h : clockEvent c ∈ (step cfg s op).2) :
    clockLatch c s = false ∧ clockLatch c (step cfg s op).1 = true ∧
      clockVal c (step cfg s op).1 = 0 := by
  cases op with
  | tickOp dt =>
      have hsplit : (tick dt s).2 = (tickGame dt s).2 ++ (tickShot dt (tickGame dt s).1).2 := rfl
      have hstate : (tick dt s).1 = (tickShot dt (tickGame dt s).1).1 := rfl
      have hG := tickGame_events dt s
      have hS := tickShot_events dt (tickGame dt s).1
      have hGf := tickGame_other_fields dt s
      have hSf := tickShot_other_fields dt (tickGame dt s).1
      cases c with
      | game =>
          have h2 : BuzzerEvent.game ∈ (tick dt s).2 := h
          rw [hsplit, List.mem_append] at h2
          have hmem : BuzzerEvent.game ∈ (tickGame dt s).2 := by
            rcases h2 with h2 | h2
            · exact h2
            · exfalso
              rcases hS with hS0 | ⟨hS1, -⟩
              · rw [hS0] at h2
                simp at h2
              · rw [hS1] at h2
                simp at h2
          rcases hG with hG0 | ⟨-, hG2, hG3, hG4⟩
          · rw [hG0] at hmem
            simp at hmem
          · refine ⟨hG2, ?_, ?_⟩
            · show (tick dt s).1.game_buzzer_played = true
              rw [hstate, hSf.2.2.2.1, hG3]
            · show (tick dt s).1.game_seconds = 0
              rw [hstate, hSf.2.2.1, hG4]
      | shot =>
          have h2 : BuzzerEvent.shot ∈ (tick dt s).2 := h
          rw [hsplit, List.mem_append] at h2
          have hmem : BuzzerEvent.shot ∈ (tickShot dt (tickGame dt s).1).2 := by
            rcases h2 with h2 | h2
            · exfalso
              rcases hG with hG0 | ⟨hG1, -⟩
              · rw [hG0] at h2
                simp at h2
              · rw [hG1] at h2
                simp at h2
            · exact h2
          rcases hS with hS0 | ⟨-, hS2, hS3, hS4⟩
          · rw [hS0] at hmem
            simp at hmem
          · refine ⟨?_, ?_, ?_⟩
            · show s.shot_buzzer_played = false
              rw [← hGf.2.2.2.1]
              exact hS2
            · show (tick dt s).1.shot_buzzer_played = true
              rw [hstate]
              exact hS3
            · show (tick dt s).1.shot_seconds = 0
              rw [hstate]
              exact hS4
  | updateScore t d => cases t <;> simp [step] at h
  | updateFoul t d => cases t <;> simp [step] at h
  | updateTimeout t d => cases t <;> simp [step] at h
  | toggleGame => simp [step] at h
  | toggleShot => simp [step] at h
  | adjustTime d => simp [step] at h
  | adjustPeriod d => simp [step] at h
  | adjustShotTime d => simp [step] at h
  | resetShot14 => simp [step] at h
  | resetShot24 => simp [step] at h
  | resetGame => simp [step] at h
  | resetAllOp => simp [step] at h
  | swapTeamsOp => simp [step] at h

/-- A latch can only be cleared by an operation whose result leaves the
corresponding clock strictly positive (manual adjustment with positive
result, or one of the resets with positive configured duration). -/
lemma unlatch_pos (cfg : Config) (hcg : 0 < cfg.game_seconds)
    (hcs : 0 < cfg.shot_seconds) (s : GameState) (op : Op) (c : Clock)
    (hbefore : clockLatch c s = true)
    (hafter : clockLatch c (step cfg s op).1 = false) :
    0 < clockVal c (step cfg s op).1 := by
  cases op with
  | tickOp dt =>
      exfalso
      cases c with
      | game =>
          have hSf := tickShot_other_fields dt (tickGame dt s).1
          have ha : (tick dt s).1.game_buzzer_played = false := hafter
          rw [show (tick dt s).1 = (tickShot dt (tickGame dt s).1).1 from rfl,
            hSf.2.2.2.1, tickGame_latch_mono dt s hbefore] at ha
          exact Bool.true_eq_false.mp ha
      | shot =>
          have hGf := tickGame_other_fields dt s
          have hb : (tickGame dt s).1.shot_buzzer_played = true := by
            rw [hGf.2.2.2.1]
            exact hbefore
          have ha : (tick dt s).1.shot_buzzer_played = false := hafter
          rw [show (tick dt s).1 = (tickShot dt (tickGame dt s).1).1 from rfl,
            tickShot_latch_mono dt (tickGame dt s).1 hb] at ha
          exact Bool.true_eq_false.mp ha
  | updateScore t d => cases t <;> cases c <;> simp_all [step, update_score, clockLatch]
  | updateFoul t d => cases t <;> cases c <;> simp_all [step, update_foul, clockLatch]
  | updateTimeout t d => cases t <;> cases c <;> simp_all [step, update_timeout, clockLatch]
  | toggleGame =>
      cases c with
      | game =>
          have ha : (toggle_game_time cfg s).game_buzzer_played = false := hafter
          show 0 < (toggle_game_time cfg s).game_seconds
          simp only [toggle_game_time, reset_game_time] at ha ⊢
          split_ifs at ha ⊢ <;> simp_all [clockLatch]
      | shot =>
          exfalso
          have ha : (toggle_game_time cfg s).shot_buzzer_played = false := hafter
          simp only [toggle_game_time, reset_game_time] at ha
          split_ifs at ha <;> simp_all [clockLatch]
  | toggleShot => cases c <;> simp_all [step, toggle_shot_time, clockLatch]
  | adjustTime d =>
      cases c with
      | game =>
          have ha : (adjust_time d s).game_buzzer_played = false := hafter
          show 0 < (adjust_time d s).game_seconds
          simp only [adjust_time] at ha ⊢
          split_ifs at ha ⊢ <;> simp_all [clockLatch]
      | shot =>
          exfalso
          have ha : (adjust_time d s).shot_buzzer_played = false := hafter
          simp only [adjust_time] at ha
          split_ifs at ha <;> simp_all [clockLatch]
  | adjustPeriod d => cases c <;> simp_all [step, adjust_period, clockLatch]
  | adjustShotTime d =>
      cases c with
      | game =>
          exfalso
          have ha : (adjust_shot_time d s).game_buzzer_played = false := hafter
          simp only [adjust_shot_time] at ha
          split_ifs at ha <;> simp_all [clockLatch]
      | shot =>
          have ha : (adjust_shot_time d s).shot_buzzer_played = false := hafter
          show 0 < (adjust_shot_time d s).shot_seconds
          simp only [adjust_shot_time] at ha ⊢
          split_ifs at ha ⊢ <;> simp_all [clockLatch]
  | resetShot14 =>
      cases c with
      | game => simp_all [step, reset_shot_clock_14, clockLatch]
      | shot =>
          show 0 < (reset_shot_clock_14 s).shot_seconds
          norm_num [reset_shot_clock_14]
  | resetShot24 =>
      cases c with
      | game => simp_all [step, reset_shot_clock, clockLatch]
      | shot =>
          show 0 < (reset_shot_clock s).shot_seconds
          norm_num [reset_shot_clock]
  | resetGame =>
      cases c with
      | game => exact hcg
      | shot => simp_all [step, reset_game_time, clockLatch]
  | resetAllOp =>
      cases c with
      | game => exact hcg
      | shot => exact hcs
  | swapTeamsOp => cases c <;> simp_all [step, swap_teams, clockLatch]

lemma stateAfter_zero (cfg : Config) (s : GameState) (ops : List Op) :
    stateAfter cfg s ops 0 = s := rfl

lemma stateAfter_succ (cfg : Config) (s : GameState) (ops : List Op) (n : ℕ)
    (h : n < ops.length) :
    stateAfter cfg s ops (n + 1) =
      (step cfg (stateAfter cfg s ops n) (ops.getD n Op.toggleShot)).1 := by
  unfold stateAfter
  rw [List.take_succ, List.foldl_append, List.getElem?_eq_getElem h,
    List.getD_eq_getElem?_getD, List.getElem?_eq_getElem h]
  rfl

/-- Discrete intermediate-value helper: a Boolean sequence that is true at
`a` and false at `b ≥ a` flips from true to false somewhere in between. -/
lemma bool_flip_exists (P : ℕ → Bool) (a b : ℕ) (hab : a ≤ b)
    (ha : P a = true) (hb : P b = false) :
    ∃ k, a ≤ k ∧ k < b ∧ P k = true ∧ P (k + 1) = false := by
  induction b with
  | zero =>
      have haz : a = 0 := Nat.le_zero.mp hab
      rw [haz] at ha
      rw [ha] at hb
      exact absurd hb (by simp)
  | succ b ih =>
      rcases Nat.lt_or_ge a (b + 1) with hlt | hge
      · have hab2 : a ≤ b := Nat.lt_succ_iff.mp hlt
        by_cases hPb : P b = true
        · exact ⟨b, hab2, Nat.lt_succ_self b, hPb, hb⟩
        · have hPb2 : P b = false := by
            cases hq : P b with
            | false => rfl
            | true => exact absurd hq hPb
          obtain ⟨k, hk1, hk2, hk3, hk4⟩ := ih hab2 hPb2
          exact ⟨k, hk1, hk2.trans (Nat.lt_succ_self b), hk3, hk4⟩
      · have haeq : a = b + 1 := Nat.le_antisymm hab hge
        rw [haeq] at ha
        rw [ha] at hb
        exact absurd hb (by simp)

/-- C2: for every sequence of tick and mutation operations, each clock
buzzer fires at most once per crossing-to-zero: if the buzzer of clock `c`
fires at two positions `i < j` of the trace, then at some intermediate
point the value of `c` was moved back above zero (which is also the only
way the latch is cleared), and at the second firing the clock has reached
zero again. -/
theorem C2_buzzer_at_most_once (cfg : Config) (s : GameState) (ops : List Op)
    (c : Clock) (i j : ℕ) (hcg : 0 < cfg.game_seconds)
    (hcs : 0 < cfg.shot_seconds) (hij : i < j)
    (hi : firesAt cfg s ops c i) (hj : firesAt cfg s ops c j) :
    (∃ k, i < k ∧ k ≤ j ∧ 0 < clockVal c (stateAfter cfg s ops k)) ∧
      clockVal c (stateAfter cfg s ops (j + 1)) = 0 := by
  obtain ⟨hi_len, hi_mem⟩ := hi
  obtain ⟨hj_len, hj_mem⟩ := hj
  have hEdge_i := fire_latch_edge cfg (stateAfter cfg s ops i)
    (ops.getD i Op.toggleShot) c hi_mem
  have hEdge_j := fire_latch_edge cfg (stateAfter cfg s ops j)
    (ops.getD j Op.toggleShot) c hj_mem
  have hlatch_i1 : clockLatch c (stateAfter cfg s ops (i + 1)) = true := by
    rw [stateAfter_succ cfg s ops i hi_len]
    exact hEdge_i.2.1
  have hlatch_j : clockLatch c (stateAfter cfg s ops j) = false := hEdge_j.1
  obtain ⟨k, hk1, hk2, hk3, hk4⟩ := bool_flip_exists
    (fun n => clockLatch c (stateAfter cfg s ops n)) (i + 1) j hij hlatch_i1 hlatch_j
  have hk_len : k < ops.length := lt_trans hk2 hj_len
  have hk4s : clockLatch c (step cfg (stateAfter cfg s ops k)
      (ops.getD k Op.toggleShot)).1 = false := by
    rw [← stateAfter_succ cfg s ops k hk_len]
    exact hk4
  have hpos := unlatch_pos cfg hcg hcs (stateAfter cfg s ops k)
    (ops.getD k Op.toggleShot) c hk3 hk4s
  refine ⟨⟨k + 1, by omega, by omega, ?_⟩, ?_⟩
  · rw [stateAfter_succ cfg s ops k hk_len]
    exact hpos
  · rw [stateAfter_succ cfg s ops j hj_len]
    exact hEdge_j.2.2

/-- Witness for C2 on a concrete trace: the shot buzzer fires at positions
1 and 3 of `c2ops`, so the clock was moved above zero in between and is
back at zero after the second firing. -/
theorem C2_buzzer_at_most_once_witness :
    (∃ k, 1 < k ∧ k ≤ 3 ∧
      0 < clockVal Clock.shot (stateAfter default_cfg (initial default_cfg true) c2ops k)) ∧
      clockVal Clock.shot (stateAfter default_cfg (initial default_cfg true) c2ops 4) = 0 :=
  C2_buzzer_at_most_once default_cfg (initial default_cfg true) c2ops Clock.shot 1 3
    (by norm_num [default_cfg]) (by norm_num [default_cfg]) (by norm_num)
    (by norm_num [firesAt, c2ops, stateAfter, step, tick, tickGame, tickShot,
      toggle_shot_time, adjust_shot_time, initial, default_cfg, clockEvent,
      List.take, List.foldl, List.getD, max_def, min_def])
    (by norm_num [firesAt, c2ops, stateAfter, step, tick, tickGame, tickShot,
      toggle_shot_time, adjust_shot_time, initial, default_cfg, clockEvent,
      List.take, List.foldl, List.getD, max_def, min_def])

lemma tick_tk_game_seconds (dt : ℚ) (s : GameState) :
    (tick_tk dt s).game_seconds =
      if s.running_game = true ∧ 0 < s.game_seconds then max 0 (s.game_seconds - dt)
      else s.game_seconds := by
  simp only [tick_tk]
  split_ifs <;> simp_all

lemma tick_tk_shot_seconds (dt : ℚ) (s : GameState) :
    (tick_tk dt s).shot_seconds =
      if s.running_shot = true ∧ 0 < s.shot_seconds then max 0 (s.shot_seconds - dt)
      else s.shot_seconds := by
  simp only [tick_tk]
  split_ifs <;> simp_all

lemma tick_tk_running (dt : ℚ) (s : GameState) :
    (tick_tk dt s).running_game = s.running_game ∧
    (tick_tk dt s).running_shot = s.running_shot := by
  simp only [tick_tk]
  split_ifs <;> simp_all

lemma tickGame_not_pos (dt : ℚ) (s : GameState)
    (h : ¬(s.running_game = true ∧ 0 < s.game_seconds)) :
    tickGame dt s = (s, []) := by
  simp only [tickGame]
  rw [if_neg h]

lemma tickShot_not_pos (dt : ℚ) (s : GameState)
    (h : ¬(s.running_shot = true ∧ 0 < s.shot_seconds)) :
    tickShot dt s = (s, []) := by
  simp only [tickShot]
  rw [if_neg h]

lemma tickGame_fire (dt : ℚ) (s : GameState) (hrun : s.running_game = true)
    (hpos : 0 < s.game_seconds) (hz : s.game_seconds - dt ≤ 0)
    (hsound : s.buzzer_sound = true) (hlatch : s.game_buzzer_played = false) :
    (tickGame dt s).2 = [BuzzerEvent.game] ∧
      (tickGame dt s).1.game_buzzer_played = true := by
  have hmax : max 0 (s.game_seconds - dt) = 0 := max_eq_left hz
  simp only [tickGame]
  split_ifs <;> simp_all

lemma tickShot_fire (dt : ℚ) (s : GameState) (hrun : s.running_shot = true)
    (hpos : 0 < s.shot_seconds) (hz : s.shot_seconds - dt ≤ 0)
    (hsound : s.buzzer_sound = true) (hlatch : s.shot_buzzer_played = false) :
    (tickShot dt s).2 = [BuzzerEvent.shot] ∧
      (tickShot dt s).1.shot_buzzer_played = true := by
  have hmax : max 0 (s.shot_seconds - dt) = 0 := max_eq_left hz
  simp only [tickShot]
  split_ifs <;> simp_all

lemma adjust_time_game_seconds (d : ℚ) (s : GameState) :
    (adjust_time d s).game_seconds = max 0 (s.game_seconds + d) := by
  simp only [adjust_time]
  split_ifs <;> rfl

lemma adjust_time_latch (d : ℚ) (s : GameState) :
    (adjust_time d s).game_buzzer_played =
      if 0 < max 0 (s.game_seconds + d) then false else s.game_buzzer_played := by
  simp only [adjust_time]
  split_ifs <;> rfl

lemma adjust_shot_time_shot_seconds (d : ℚ) (s : GameState) :
    (adjust_shot_time d s).shot_seconds = max 0 (min 99 (s.shot_seconds + d)) := by
  simp only [adjust_shot_time]
  split_ifs <;> rfl

lemma adjust_shot_time_latch (d : ℚ) (s : GameState) :
    (adjust_shot_time d s).shot_buzzer_played =
      if 0 < max 0 (min 99 (s.shot_seconds + d)) then false
      else s.shot_buzzer_played := by
  simp only [adjust_shot_time]
  split_ifs <;> rfl

/-- Splitting a guarded floor-decrement: decrementing a positive value by
`dt1` and then by `dt2 ≥ 0` (skipping the second decrement when the first
already reached the floor) equals decrementing by `dt1 + dt2` once. -/
lemma floor_dec_add (v dt1 dt2 : ℚ) (hv : 0 < v) (h2 : 0 ≤ dt2) :
    (if 0 < max 0 (v - dt1) then max 0 (max 0 (v - dt1) - dt2)
     else max 0 (v - dt1)) = max 0 (v - (dt1 + dt2)) := by
  rcases le_or_lt (v - dt1) 0 with h | h
  · rw [max_eq_left h, if_neg (lt_irrefl 0)]
    symm
    rw [max_eq_left]
    linarith
  · rw [max_eq_right h.le, if_pos h]
    have harith : v - dt1 - dt2 = v - (dt1 + dt2) := by ring
    rw [harith]

/-- The guarded clock update of one timer iteration, iterated twice, equals
a single update with the summed delta. -/
lemma guarded_dec_add (r : Bool) (v dt1 dt2 : ℚ) (h2 : 0 ≤ dt2) :
    (if r = true ∧ 0 < (if r = true ∧ 0 < v then max 0 (v - dt1) else v) then
       max 0 ((if r = true ∧ 0 < v then max 0 (v - dt1) else v) - dt2)
     else (if r = true ∧ 0 < v then max 0 (v - dt1) else v)) =
    (if r = true ∧ 0 < v then max 0 (v - (dt1 + dt2)) else v) := by
  cases r with
  | false => simp
  | true =>
      by_cases hv : 0 < v
      · simp only [true_and, if_pos hv, show (true = true) = True by simp, true_and]
        exact floor_dec_add v dt1 dt2 hv h2
      · simp [hv]

/-- C1 counterexample: from a state with the game clock running at 2
seconds, sound loaded and latch clear, ticking with `dt = 3 ≥ 0` drives the
value to 0, but the running flag is still `true` afterwards — the tick step
does not set it to `false` as the claim states. -/
theorem C1_counterexample :
    c1_state.running_game = true ∧ 0 < c1_state.game_seconds ∧ (0 : ℚ) ≤ 3 ∧
    (tick 3 c1_state).1.game_seconds = 0 ∧
    (tick 3 c1_state).1.running_game = true := by
  refine ⟨rfl, by norm_num [c1_state, initial, default_cfg], by norm_num, ?_, ?_⟩
  · rw [tick_game_seconds]
    norm_num [c1_state, initial, default_cfg, max_def]
  · rw [(tick_running 3 c1_state).1]
    rfl

/-- C1 amended: if a clock is running with positive value and a tick with
`dt ≥ 0` reaches 0, the value lands exactly on 0 and — when a buzzer sound
is loaded and that clock's latch is clear — the buzzer event fires and the
latch is set, in the same step; the running flag, however, is left
unchanged (the timer loop never clears it). -/
theorem C1_tick_to_zero (c : Clock) (s : GameState) (dt : ℚ)
    (hrun : clockRunning c s = true) (hpos : 0 < clockVal c s) (hdt : 0 ≤ dt)
    (hz : clockVal c s - dt ≤ 0) (hsound : s.buzzer_sound = true)
    (hlatch : clockLatch c s = false) :
    clockVal c (tick dt s).1 = 0 ∧
    clockRunning c (tick dt s).1 = clockRunning c s ∧
    clockEvent c ∈ (tick dt s).2 ∧
    clockLatch c (tick dt s).1 = true := by
  have hsplit : (tick dt s).2 = (tickGame dt s).2 ++ (tickShot dt (tickGame dt s).1).2 := rfl
  have hstate : (tick dt s).1 = (tickShot dt (tickGame dt s).1).1 := rfl
  cases c with
  | game =>
      have hfire := tickGame_fire dt s hrun hpos hz hsound hlatch
      have hSf := tickShot_other_fields dt (tickGame dt s).1
      refine ⟨?_, (tick_running dt s).1, ?_, ?_⟩
      · show (tick dt s).1.game_seconds = 0
        rw [tick_game_seconds, if_pos ⟨hrun, hpos⟩]
        exact max_eq_left hz
      · show BuzzerEvent.game ∈ (tick dt s).2
        rw [hsplit, hfire.1]
        exact List.mem_append_left _ (List.mem_singleton_self _)
      · show (tick dt s).1.game_buzzer_played = true
        rw [hstate, hSf.2.2.2.1, hfire.2]
  | shot =>
      have hGf := tickGame_other_fields dt s
      have hfire := tickShot_fire dt (tickGame dt s).1
        (by rw [hGf.2.1]; exact hrun) (by rw [hGf.2.2.1]; exact hpos)
        (by rw [hGf.2.2.1]; exact hz) (by rw [hGf.2.2.2.2]; exact hsound)
        (by rw [hGf.2.2.2.1]; exact hlatch)
      refine ⟨?_, (tick_running dt s).2, ?_, ?_⟩
      · show (tick dt s).1.shot_seconds = 0
        rw [tick_shot_seconds, if_pos ⟨hrun, hpos⟩]
        exact max_eq_left hz
      · show BuzzerEvent.shot ∈ (tick dt s).2
        rw [hsplit, hfire.1]
        exact List.mem_append_right _ (List.mem_singleton_self _)
      · show (tick dt s).1.shot_buzzer_played = true
        rw [hstate, hfire.2]

/-- Witness for C1 amended at the concrete state `c1_state` with `dt = 2`:
the game clock lands on 0, stays flagged running, and the buzzer event
fires with the latch set. -/
theorem C1_tick_to_zero_witness :
    clockVal Clock.game (tick 2 c1_state).1 = 0 ∧
    clockRunning Clock.game (tick 2 c1_state).1 = clockRunning Clock.game c1_state ∧
    clockEvent Clock.game ∈ (tick 2 c1_state).2 ∧
    clockLatch Clock.game (tick 2 c1_state).1 = true :=
  C1_tick_to_zero Clock.game c1_state 2 rfl
    (by norm_num [clockVal, c1_state, initial, default_cfg])
    (by norm_num)
    (by norm_num [clockVal, c1_state, initial, default_cfg])
    rfl rfl

/-- C3: starting from any state with non-negative clock values (and
non-negative configured durations, which the resets restore), every
operation — ticks with `dt ≥ 0` included — leaves both `game_seconds` and
`shot_seconds` non-negative; the same holds for the tkinter-variant timer
iteration `tick_tk`. -/
theorem C3_clocks_nonneg (cfg : Config) (s : GameState) (op : Op) (dt : ℚ)
    (hop : ValidOp op) (hcg : 0 ≤ cfg.game_seconds) (hcs : 0 ≤ cfg.shot_seconds)
    (hg : 0 ≤ s.game_seconds) (hs : 0 ≤ s.shot_seconds) :
    0 ≤ (step cfg s op).1.game_seconds ∧ 0 ≤ (step cfg s op).1.shot_seconds ∧
    0 ≤ (tick_tk dt s).game_seconds ∧ 0 ≤ (tick_tk dt s).shot_seconds := by
  obtain ⟨h1, h2⟩ := step_clock_nonneg cfg s op hcg hcs hg hs
  refine ⟨h1, h2, ?_, ?_⟩
  · rw [tick_tk_game_seconds]
    split_ifs
    · exact le_max_left 0 _
    · exact hg
  · rw [tick_tk_shot_seconds]
    split_ifs
    · exact le_max_left 0 _
    · exact hs

/-- Witness for C3 at the default configuration and initial state, with a
tick of 5 seconds in both variants. -/
theorem C3_clocks_nonneg_witness :
    0 ≤ (step default_cfg (initial default_cfg true) (Op.tickOp 5)).1.game_seconds ∧
    0 ≤ (step default_cfg (initial default_cfg true) (Op.tickOp 5)).1.shot_seconds ∧
    0 ≤ (tick_tk 5 (initial default_cfg true)).game_seconds ∧
    0 ≤ (tick_tk 5 (initial default_cfg true)).shot_seconds :=
  C3_clocks_nonneg default_cfg (initial default_cfg true) (Op.tickOp 5) 5
    (by norm_num [ValidOp]) (by norm_num [default_cfg]) (by norm_num [default_cfg])
    (by norm_num [initial, default_cfg]) (by norm_num [initial, default_cfg])

/-- C4 counterexample: the state reached from the initial state by starting
the game clock and ticking the full 600 configured seconds is reachable,
has `game_seconds = 0`, and still has `running_game = true` — refuting the
claimed invariant that no reachable state has a clock at 0 with its running
flag set. -/
theorem C4_counterexample :
    Reachable default_cfg c4_state ∧ c4_state.game_seconds = 0 ∧
    c4_state.running_game = true := by
  refine ⟨?_, ?_, ?_⟩
  · exact Reachable.step _ (Op.tickOp 600)
      (Reachable.step _ Op.toggleGame (Reachable.init true) trivial)
      (by norm_num [ValidOp])
  · show (tick 600 (toggle_game_time default_cfg (initial default_cfg true))).1.game_seconds = 0
    rw [tick_game_seconds]
    norm_num [toggle_game_time, reset_game_time, initial, default_cfg, max_def]
  · show (tick 600 (toggle_game_time default_cfg (initial default_cfg true))).1.running_game = true
    rw [(tick_running _ _).1]
    norm_num [toggle_game_time, reset_game_time, initial, default_cfg]

/-- C4 amended: every reachable state (under non-negative configured
durations) has non-negative clock values, and a clock whose value is 0 is
inert under the tick step regardless of its running flag: its value stays
exactly 0 and no buzzer event fires for it.  The flag itself, however, may
be `true` at zero (see the counterexample), so the claimed dichotomy holds
for the values but not for the running flags. -/
theorem C4_zero_clock_inert (cfg : Config) (s : GameState) (c : Clock) (dt : ℚ)
    (hcg : 0 ≤ cfg.game_seconds) (hcs : 0 ≤ cfg.shot_seconds)
    (hreach : Reachable cfg s) (hzero : clockVal c s = 0) :
    0 ≤ s.game_seconds ∧ 0 ≤ s.shot_seconds ∧
    clockVal c (tick dt s).1 = 0 ∧ clockEvent c ∉ (tick dt s).2 := by
  obtain ⟨hg, hs⟩ := reachable_nonneg cfg s hcg hcs hreach
  have hsplit : (tick dt s).2 = (tickGame dt s).2 ++ (tickShot dt (tickGame dt s).1).2 := rfl
  refine ⟨hg, hs, ?_, ?_⟩
  · cases c with
    | game =>
        show (tick dt s).1.game_seconds = 0
        rw [tick_game_seconds, if_neg]
        · exact hzero
        · rintro ⟨-, hpos⟩
          rw [show s.game_seconds = 0 from hzero] at hpos
          exact lt_irrefl 0 hpos
    | shot =>
        show (tick dt s).1.shot_seconds = 0
        rw [tick_shot_seconds, if_neg]
        · exact hzero
        · rintro ⟨-, hpos⟩
          rw [show s.shot_seconds = 0 from hzero] at hpos
          exact lt_irrefl 0 hpos
  · cases c with
    | game =>
        have hng : ¬(s.running_game = true ∧ 0 < s.game_seconds) := by
          rintro ⟨-, hpos⟩
          rw [show s.game_seconds = 0 from hzero] at hpos
          exact lt_irrefl 0 hpos
        show BuzzerEvent.game ∉ (tick dt s).2
        rw [hsplit, tickGame_not_pos dt s hng]
        rcases tickShot_events dt s with h0 | ⟨h1, -⟩
        · rw [h0]
          simp
        · rw [h1]
          simp
    | shot =>
        have hGf := tickGame_other_fields dt s
        have hns : ¬((tickGame dt s).1.running_shot = true ∧
            0 < (tickGame dt s).1.shot_seconds) := by
          rintro ⟨-, hpos⟩
          rw [hGf.2.2.1, show s.shot_seconds = 0 from hzero] at hpos
          exact lt_irrefl 0 hpos
        show BuzzerEvent.shot ∉ (tick dt s).2
        rw [hsplit, tickShot_not_pos dt (tickGame dt s).1 hns]
        rcases tickGame_events dt s with h0 | ⟨h1, -⟩
        · rw [h0]
          simp
        · rw [h1]
          simp

/-- Witness for C4 amended: with a zero configured game duration the
initial state itself has the game clock at 0; ticking 5 seconds keeps it at
exactly 0 and fires no game buzzer. -/
theorem C4_zero_clock_inert_witness :
    0 ≤ (initial c4w_cfg true).game_seconds ∧
    0 ≤ (initial c4w_cfg true).shot_seconds ∧
    clockVal Clock.game (tick 5 (initial c4w_cfg true)).1 = 0 ∧
    clockEvent Clock.game ∉ (tick 5 (initial c4w_cfg true)).2 :=
  C4_zero_clock_inert c4w_cfg (initial c4w_cfg true) Clock.game 5
    (by norm_num [c4w_cfg, default_cfg]) (by norm_num [c4w_cfg, default_cfg])
    (Reachable.init true) rfl

/-- C5 counterexample: with the shot clock at 0 (and a configured full
duration of 24), `toggle_shot_time` does not reset to full: the value stays
0, the clock is started, and the set latch is not cleared — refuting the
claim for the shot clock. -/
theorem C5_counterexample :
    c5_state.shot_seconds = 0 ∧ default_cfg.shot_seconds = 24 ∧
    (toggle_shot_time c5_state).shot_seconds = 0 ∧
    (toggle_shot_time c5_state).running_shot = true ∧
    (toggle_shot_time c5_state).shot_buzzer_played = true :=
  ⟨rfl, rfl, rfl, rfl, rfl⟩

/-- C5 amended: only the game clock's toggle performs a reset-to-full when
the clock reads 0 (restoring the configured duration, stopping the clock
and clearing its latch); the shot clock's toggle always just flips the
running flag, leaving value and latch unchanged, even at zero. -/
theorem C5_toggle_at_zero (cfg : Config) (s : GameState)
    (hzero : s.game_seconds = 0) :
    (toggle_game_time cfg s).game_seconds = cfg.game_seconds ∧
    (toggle_game_time cfg s).running_game = false ∧
    (toggle_game_time cfg s).game_buzzer_played = false ∧
    (toggle_shot_time s).shot_seconds = s.shot_seconds ∧
    (toggle_shot_time s).running_shot = !s.running_shot ∧
    (toggle_shot_time s).shot_buzzer_played = s.shot_buzzer_played := by
  simp [toggle_game_time, if_pos hzero, reset_game_time, toggle_shot_time]

/-- Witness for C5 amended at `c5_state` (both clocks at 0). -/
theorem C5_toggle_at_zero_witness :
    (toggle_game_time default_cfg c5_state).game_seconds = default_cfg.game_seconds ∧
    (toggle_game_time default_cfg c5_state).running_game = false ∧
    (toggle_game_time default_cfg c5_state).game_buzzer_played = false ∧
    (toggle_shot_time c5_state).shot_seconds = c5_state.shot_seconds ∧
    (toggle_shot_time c5_state).running_shot = !c5_state.running_shot ∧
    (toggle_shot_time c5_state).shot_buzzer_played = c5_state.shot_buzzer_played :=
  C5_toggle_at_zero default_cfg c5_state rfl

/-- C6 counterexample: `adjust_time` applies no upper cap: from the
configured full duration of 600 seconds, adding 9999 yields 10599, which
exceeds both the configured duration and the 99 cap named by the claim —
so the game clock value is not clamped into `[0, cap]`. -/
theorem C6_counterexample :
    (initial default_cfg true).game_seconds = 600 ∧
    (adjust_time 9999 (initial default_cfg true)).game_seconds = 10599 ∧
    ¬(adjust_time 9999 (initial default_cfg true)).game_seconds ≤ default_cfg.game_seconds ∧
    ¬(adjust_time 9999 (initial default_cfg true)).game_seconds ≤ 99 := by
  rw [adjust_time_game_seconds]
  norm_num [initial, default_cfg, max_def]

/-- C6 amended: `adjust_shot_time` clamps the shot clock into `[0, 99]` and
clears the shot latch whenever the result is positive; `adjust_time` floors
the game clock at 0 and clears the game latch whenever the result is
positive, but applies no upper cap — the result exceeds any prescribed
bound `e` for a large enough delta. -/
theorem C6_adjust_clamp (s : GameState) (d e : ℚ) :
    0 ≤ (adjust_shot_time d s).shot_seconds ∧
    (adjust_shot_time d s).shot_seconds ≤ 99 ∧
    (0 < (adjust_shot_time d s).shot_seconds →
      (adjust_shot_time d s).shot_buzzer_played = false) ∧
    0 ≤ (adjust_time d s).game_seconds ∧
    (0 < (adjust_time d s).game_seconds →
      (adjust_time d s).game_buzzer_played = false) ∧
    e < (adjust_time e (initial default_cfg true)).game_seconds := by
  refine ⟨?_, ?_, ?_, ?_, ?_, ?_⟩
  · rw [adjust_shot_time_shot_seconds]
    exact le_max_left _ _
  · rw [adjust_shot_time_shot_seconds]
    exact max_le (by norm_num) (min_le_left _ _)
  · intro h
    rw [adjust_shot_time_shot_seconds] at h
    rw [adjust_shot_time_latch, if_pos h]
  · rw [adjust_time_game_seconds]
    exact le_max_left _ _
  · intro h
    rw [adjust_time_game_seconds] at h
    rw [adjust_time_latch, if_pos h]
  · rw [adjust_time_game_seconds]
    have h600 : (initial default_cfg true).game_seconds = 600 := rfl
    rw [h600]
    have he : e < 600 + e := by linarith
    exact he.trans_le (le_max_right 0 _)

/-- Witness for C6 amended at the initial state with `d = 5`, `e = 7`: both
latch-clearing implications fire and the game clock exceeds 7. -/
theorem C6_adjust_clamp_witness :
    0 ≤ (adjust_shot_time 5 (initial default_cfg true)).shot_seconds ∧
    (adjust_shot_time 5 (initial default_cfg true)).shot_seconds ≤ 99 ∧
    (adjust_shot_time 5 (initial default_cfg true)).shot_buzzer_played = false ∧
    0 ≤ (adjust_time 5 (initial default_cfg true)).game_seconds ∧
    (adjust_time 5 (initial default_cfg true)).game_buzzer_played = false ∧
    (7 : ℚ) < (adjust_time 7 (initial default_cfg true)).game_seconds := by
  obtain ⟨h1, h2, h3, h4, h5, h6⟩ := C6_adjust_clamp (initial default_cfg true) 5 7
  refine ⟨h1, h2, h3 ?_, h4, h5 ?_, h6⟩
  · rw [adjust_shot_time_shot_seconds]
    norm_num [initial, default_cfg, max_def, min_def]
  · rw [adjust_time_game_seconds]
    norm_num [initial, default_cfg, max_def]

/-- C7: for every state, team and signed delta, the score, foul and timeout
updates set the targeted counter to `max 0 (old + delta)` — never negative
— and leave the other team's counter unchanged; in particular a −100 score
adjustment from 3 points yields 0. -/
theorem C7_counter_floor (s : GameState) (t : Team) (d : ℤ) :
    scoreOf t (update_score t d s) = max 0 (scoreOf t s + d) ∧
    scoreOf t.other (update_score t d s) = scoreOf t.other s ∧
    0 ≤ scoreOf t (update_score t d s) ∧
    foulsOf t (update_foul t d s) = max 0 (foulsOf t s + d) ∧
    foulsOf t.other (update_foul t d s) = foulsOf t.other s ∧
    0 ≤ foulsOf t (update_foul t d s) ∧
    timeoutsOf t (update_timeout t d s) = max 0 (timeoutsOf t s + d) ∧
    timeoutsOf t.other (update_timeout t d s) = timeoutsOf t.other s ∧
    0 ≤ timeoutsOf t (update_timeout t d s) ∧
    (update_score Team.A (-100) c7_state).scoreA = 0 := by
  have hc7 : (update_score Team.A (-100) c7_state).scoreA = 0 := by decide
  cases t <;>
    exact ⟨rfl, rfl, le_max_left _ _, rfl, rfl, le_max_left _ _, rfl, rfl,
      le_max_left _ _, hc7⟩

/-- C8: for `dt1, dt2 ≥ 0`, ticking a state by `dt1` and then by `dt2`
yields the same clock values as a single tick by `dt1 + dt2`, in both timer
variants (additivity of elapsed time over tick splitting, the zero floor
included). -/
theorem C8_tick_additive (s : GameState) (dt1 dt2 : ℚ)
    (h1 : 0 ≤ dt1) (h2 : 0 ≤ dt2) :
    (tick dt2 (tick dt1 s).1).1.game_seconds = (tick (dt1 + dt2) s).1.game_seconds ∧
    (tick dt2 (tick dt1 s).1).1.shot_seconds = (tick (dt1 + dt2) s).1.shot_seconds ∧
    (tick_tk dt2 (tick_tk dt1 s)).game_seconds = (tick_tk (dt1 + dt2) s).game_seconds ∧
    (tick_tk dt2 (tick_tk dt1 s)).shot_seconds = (tick_tk (dt1 + dt2) s).shot_seconds := by
  refine ⟨?_, ?_, ?_, ?_⟩
  · rw [tick_game_seconds dt2, (tick_running dt1 s).1, tick_game_seconds dt1,
      tick_game_seconds (dt1 + dt2)]
    exact guarded_dec_add s.running_game s.game_seconds dt1 dt2 h2
  · rw [tick_shot_seconds dt2, (tick_running dt1 s).2, tick_shot_seconds dt1,
      tick_shot_seconds (dt1 + dt2)]
    exact guarded_dec_add s.running_shot s.shot_seconds dt1 dt2 h2
  · rw [tick_tk_game_seconds dt2, (tick_tk_running dt1 s).1, tick_tk_game_seconds dt1,
      tick_tk_game_seconds (dt1 + dt2)]
    exact guarded_dec_add s.running_game s.game_seconds dt1 dt2 h2
  · rw [tick_tk_shot_seconds dt2, (tick_tk_running dt1 s).2, tick_tk_shot_seconds dt1,
      tick_tk_shot_seconds (dt1 + dt2)]
    exact guarded_dec_add s.running_shot s.shot_seconds dt1 dt2 h2

/-- Witness for C8 at `c8_state` with `dt1 = 1`, `dt2 = 3/2` (the second
tick overshoots the 2-second game clock). -/
theorem C8_tick_additive_witness :
    (tick (3/2) (tick 1 c8_state).1).1.game_seconds =
      (tick (1 + 3/2) c8_state).1.game_seconds ∧
    (tick (3/2) (tick 1 c8_state).1).1.shot_seconds =
      (tick (1 + 3/2) c8_state).1.shot_seconds ∧
    (tick_tk (3/2) (tick_tk 1 c8_state)).game_seconds =
      (tick_tk (1 + 3/2) c8_state).game_seconds ∧
    (tick_tk (3/2) (tick_tk 1 c8_state)).shot_seconds =
      (tick_tk (1 + 3/2) c8_state).shot_seconds :=
  C8_tick_additive c8_state 1 (3/2) (by norm_num) (by norm_num)

/-- C9: `reset_all` restores both clocks to the configured durations,
resets scores and fouls to 0 and the period to 1, restores the configured
per-team timeout count, stops both clocks and clears both buzzer latches,
regardless of the prior state. -/
theorem C9_reset_all_restores (cfg : Config) (s : GameState) :
    (reset_all cfg s).game_seconds = cfg.game_seconds ∧
    (reset_all cfg s).shot_seconds = cfg.shot_seconds ∧
    (reset_all cfg s).scoreA = 0 ∧ (reset_all cfg s).scoreB = 0 ∧
    (reset_all cfg s).foulsA = 0 ∧ (reset_all cfg s).foulsB = 0 ∧
    (reset_all cfg s).period = 1 ∧
    (reset_all cfg s).timeoutsA = cfg.timeouts_per_team ∧
    (reset_all cfg s).timeoutsB = cfg.timeouts_per_team ∧
    (reset_all cfg s).running_game = false ∧
    (reset_all cfg s).running_shot = false ∧
    (reset_all cfg s).game_buzzer_played = false ∧
    (reset_all cfg s).shot_buzzer_played = false :=
  ⟨rfl, rfl, rfl, rfl, rfl, rfl, rfl, rfl, rfl, rfl, rfl, rfl, rfl⟩

/-- C10: `swap_teams` exchanges the name/score/foul/timeout pairs between
the two team slots, leaves the rest of the state (period, clocks) intact,
and applying it twice restores the original state exactly (involution). -/
theorem C10_swap_teams_involution (s : GameState) :
    (swap_teams s).teamA_name = s.teamB_name ∧
    (swap_teams s).teamB_name = s.teamA_name ∧
    (swap_teams s).scoreA = s.scoreB ∧ (swap_teams s).scoreB = s.scoreA ∧
    (swap_teams s).foulsA = s.foulsB ∧ (swap_teams s).foulsB = s.foulsA ∧
    (swap_teams s).timeoutsA = s.timeoutsB ∧
    (swap_teams s).timeoutsB = s.timeoutsA ∧
    (swap_teams s).period = s.period ∧
    (swap_teams s).game_seconds = s.game_seconds ∧
    (swap_teams s).shot_seconds = s.shot_seconds ∧
    swap_teams (swap_teams s) = s :=
  ⟨rfl, rfl, rfl, rfl, rfl, rfl, rfl, rfl, rfl, rfl, rfl, rfl⟩

end NovatoStatPad
